import Mathlib

/-!
Verification of the storage abstraction and protocol layer of the
self-image-bed repository: the SigV4 and legacy-V2 request signers, the
provider registry (StorageManager), and the provider upload/delete/retry
logic, shallowly embedded in Lean.  Platform primitives (HMAC, SHA-256,
base64, URL encoding, fetch, randomness, clock) are abstracted as explicit
function or data parameters; everything written by the repository itself is
translated definition-for-definition from the JavaScript source.
-/

/-- Byte strings (the JS `Uint8Array`) are modelled as lists of naturals. -/
abbrev Bytes := List Nat

/-- Abstract HMAC-SHA256 primitive: key bytes and data bytes to MAC bytes
(models `crypto.subtle` HMAC-SHA256 in `S3Storage.hmacSha256`). -/
abbrev HmacFn := Bytes → Bytes → Bytes

/-- Abstract UTF-8 encoder (models the JS `TextEncoder`). -/
abbrev EncodeFn := String → Bytes

/-- Abstract hex-SHA-256 of a string (models `S3Storage.sha256`, which
returns the lowercase hex digest). -/
abbrev ShaHexFn := String → String

/-- Hex digit characters, as produced by JS `b.toString(16)`. -/
def hexDigit (n : Nat) : Char :=
  if n < 10 then Char.ofNat (48 + n) else Char.ofNat (87 + n)

/-- One byte to two lowercase hex characters (`toString(16).padStart(2,'0')`). -/
def byteToHex (b : Nat) : String :=
  String.mk [hexDigit (b / 16 % 16), hexDigit (b % 16)]

/-- `S3Storage.toHex`: bytes to a lowercase hex string. -/
def toHex (bs : Bytes) : String :=
  String.join (bs.map byteToHex)

/-- JS string comparison used by `Array.prototype.sort()`: lexicographic on
code units. -/
def strCodeLt : List Char → List Char → Bool
  | [], [] => false
  | [], _ :: _ => true
  | _ :: _, [] => false
  | a :: as, b :: bs =>
    if a < b then true else if b < a then false else strCodeLt as bs

/-- String version of `strCodeLt`. -/
def jsStrLt (a b : String) : Bool := strCodeLt a.data b.data

/-- JS `s.toLowerCase()` (ASCII case mapping), written structurally. -/
def jsToLower (s : String) : String := String.mk (s.data.map Char.toLower)

/-- JS `s.startsWith(pre)`, written structurally. -/
def jsStartsWith (s pre : String) : Bool := pre.data.isPrefixOf s.data

/-- Stable insertion into a sorted list (later-inserted equals stay after). -/
def insertSorted (x : String) : List String → List String
  | [] => [x]
  | y :: ys => if jsStrLt x y then x :: y :: ys else y :: insertSorted x ys

/-- JS `Array.prototype.sort()` with the default comparator on strings. -/
def jsSortStrings (l : List String) : List String :=
  l.foldl (fun acc x => insertSorted x acc) []

/-- JS `array.join(sep)` on strings already converted from any `undefined`
entries. -/
def jsJoin (sep : String) : List String → String
  | [] => ""
  | [x] => x
  | x :: y :: ys => x ++ sep ++ jsJoin sep (y :: ys)

/-- Exact-key property access `obj[k]` on a string-valued object. -/
def jsGet (hs : List (String × String)) (k : String) : Option String :=
  (hs.find? (fun p => p.1 = k)).map (fun p => p.2)

/-- The keys of a JS object, in insertion order (`Object.keys`). -/
def jsKeys (hs : List (String × String)) : List String :=
  hs.map (fun p => p.1)

/-- Configuration owned by an `S3Storage` instance (SigV4 dialect). -/
structure S3Cfg where
  accessKeyId : String
  secretAccessKey : String
  region : String
  bucket : String
  endpoint : String
  publicUrl : String
deriving DecidableEq

/-- `S3Storage.getSignatureKey`: the four chained HMAC-SHA256 operations
deriving the SigV4 signing key. -/
def S3Storage.getSignatureKey (hmac : HmacFn) (enc : EncodeFn)
    (key dateStamp regionName serviceName : String) : Bytes :=
  let kDate := hmac (enc ("AWS4" ++ key)) (enc dateStamp)
  let kRegion := hmac kDate (enc regionName)
  let kService := hmac kRegion (enc serviceName)
  let kSigning := hmac kService (enc "aws4_request")
  kSigning

/-- `S3Storage.generateSignature`: builds the canonical request, the
string-to-sign and the final `Authorization` header value for SigV4.
`hmac`, `sha`, `enc` abstract the WebCrypto primitives. -/
def S3Storage.generateSignature (hmac : HmacFn) (sha : ShaHexFn) (enc : EncodeFn)
    (cfg : S3Cfg) (method canonicalUri canonicalQueryString : String)
    (headers : List (String × String)) (dateStamp : String) : String :=
  let service := "s3"
  let algorithm := "AWS4-HMAC-SHA256"
  let credentialScope := dateStamp ++ "/" ++ cfg.region ++ "/" ++ service ++ "/aws4_request"
  let signedHeaders := jsJoin ";" (jsSortStrings ((jsKeys headers).map jsToLower))
  let canonicalHeaders := String.join
    ((jsSortStrings ((jsKeys headers).map jsToLower)).map (fun h =>
      h ++ ":" ++ ((headers.find? (fun p => jsToLower p.1 = h)).map (fun p => p.2)).getD "undefined" ++ "\n"))
  let payloadHash := (jsGet headers "x-amz-content-sha256").getD ""
  let canonicalRequest := jsJoin "\n"
    [method, canonicalUri, canonicalQueryString, canonicalHeaders, signedHeaders, payloadHash]
  let stringToSign := jsJoin "\n"
    [algorithm, (jsGet headers "x-amz-date").getD "", credentialScope, sha canonicalRequest]
  let signingKey := S3Storage.getSignatureKey hmac enc cfg.secretAccessKey dateStamp cfg.region service
  let signatureHex := toHex (hmac signingKey (enc stringToSign))
  algorithm ++ " Credential=" ++ cfg.accessKeyId ++ "/" ++ credentialScope ++
    ", SignedHeaders=" ++ signedHeaders ++ ", Signature=" ++ signatureHex

/-- The SigV4 Authorization value as the spec words it: signing key from the
four chained HMACs `HMAC(HMAC(HMAC(HMAC("AWS4"+secret, dateStamp), region),
service), "aws4_request")`, signature `hex(HMAC(signingKey, stringToSign))`
over the string-to-sign built from the hex-SHA256 of the canonical request,
assembled into `AWS4-HMAC-SHA256 Credential=.../aws4_request,
SignedHeaders=..., Signature=...` with `;`-joined sorted lower-cased header
names. -/
def specSigV4Authorization (hmac : HmacFn) (sha : ShaHexFn) (enc : EncodeFn)
    (cfg : S3Cfg) (method canonicalUri canonicalQueryString : String)
    (headers : List (String × String)) (dateStamp amzDate payloadHash : String) : String :=
  let signedHeaders := jsJoin ";" (jsSortStrings ((jsKeys headers).map jsToLower))
  let canonicalHeaders := String.join
    ((jsSortStrings ((jsKeys headers).map jsToLower)).map (fun h =>
      h ++ ":" ++ ((headers.find? (fun p => jsToLower p.1 = h)).map (fun p => p.2)).getD "undefined" ++ "\n"))
  let canonicalRequest := method ++ "\n" ++ canonicalUri ++ "\n" ++ canonicalQueryString ++
    "\n" ++ canonicalHeaders ++ "\n" ++ signedHeaders ++ "\n" ++ payloadHash
  let credentialScope := dateStamp ++ "/" ++ cfg.region ++ "/" ++ "s3" ++ "/aws4_request"
  let stringToSign := "AWS4-HMAC-SHA256" ++ "\n" ++ amzDate ++ "\n" ++
    credentialScope ++ "\n" ++ sha canonicalRequest
  let signingKey :=
    hmac (hmac (hmac (hmac (enc ("AWS4" ++ cfg.secretAccessKey)) (enc dateStamp))
      (enc cfg.region)) (enc "s3")) (enc "aws4_request")
  "AWS4-HMAC-SHA256" ++ " Credential=" ++ cfg.accessKeyId ++ "/" ++ credentialScope ++
    ", SignedHeaders=" ++ signedHeaders ++ ", Signature=" ++
    toHex (hmac signingKey (enc stringToSign))

/-- Abstract HMAC-SHA1-then-base64 primitive on strings (models
`MinIOStorage.hmacSha1`, whose JS body encodes both arguments as UTF-8 and
base64-encodes the MAC). -/
abbrev HmacSha1B64Fn := String → String → String

/-- Abstract `encodeURIComponent` (ECMAScript builtin). -/
abbrev UriEncodeFn := String → String

/-- Configuration owned by a `MinIOStorage` instance (legacy V2 dialect). -/
structure MinIOCfg where
  endpoint : String
  accessKey : String
  secretKey : String
  bucket : String
  region : String
  useSSL : Bool
  port : Nat
  baseUrl : String
deriving DecidableEq

/-- The string-to-sign built inside `MinIOStorage.generateAuthorization`:
`[method, contentMD5, contentType, date, canonicalizedAmzHeaders +
canonicalizedResource].join('\n')`, where the x-amz-* header names are
sorted (in their original case) and then lower-cased. -/
def MinIOStorage.stringToSign (cfg : MinIOCfg) (method key : String)
    (headers : List (String × String)) : String :=
  let contentMD5 := ""
  let contentType := (jsGet headers "Content-Type").getD ""
  let date := (jsGet headers "Date").getD ""
  let amzHeaders := jsJoin "\n"
    ((jsSortStrings ((jsKeys headers).filter (fun h => jsStartsWith (jsToLower h) "x-amz-"))).map
      (fun h => jsToLower h ++ ":" ++ (jsGet headers h).getD "undefined"))
  let canonicalizedAmzHeaders := if amzHeaders ≠ "" then amzHeaders ++ "\n" else ""
  let canonicalizedResource := "/" ++ cfg.bucket ++ "/" ++ key
  jsJoin "\n" [method, contentMD5, contentType, date, canonicalizedAmzHeaders ++ canonicalizedResource]

/-- `MinIOStorage.generateAuthorization`: the legacy V2 `Authorization`
header value `AWS <accessKey>:<base64(HMAC-SHA1(secretKey, stringToSign))>`. -/
def MinIOStorage.generateAuthorization (hb : HmacSha1B64Fn) (cfg : MinIOCfg)
    (method key : String) (headers : List (String × String)) : String :=
  "AWS " ++ cfg.accessKey ++ ":" ++ hb cfg.secretKey (MinIOStorage.stringToSign cfg method key headers)

/-- `MinIOStorage.generatePresignedUrl`: legacy V2 presigned GET URL with an
epoch expiry.  `nowMs` models `Date.now()`. -/
def MinIOStorage.generatePresignedUrl (hb : HmacSha1B64Fn) (uriEnc : UriEncodeFn)
    (cfg : MinIOCfg) (nowMs : Nat) (key : String) (expiresIn : Nat) : String :=
  let expires := nowMs / 1000 + expiresIn
  let canonicalizedResource := "/" ++ cfg.bucket ++ "/" ++ key
  let stringToSign := jsJoin "\n" ["GET", "", "", toString expires, canonicalizedResource]
  let signature := hb cfg.secretKey stringToSign
  let encodedSignature := uriEnc signature
  cfg.baseUrl ++ "/" ++ cfg.bucket ++ "/" ++ key ++ "?AWSAccessKeyId=" ++ cfg.accessKey ++
    "&Expires=" ++ toString expires ++ "&Signature=" ++ encodedSignature

/-- The spec-side V2 string-to-sign, transcribed from the spec wording:
canonicalized amz headers are the lower-cased `x-amz-*` header lines sorted
lexicographically and newline-joined, empty if none, followed by the
canonicalized resource. -/
def specV2StringToSign (method contentMD5 contentType date : String)
    (headers : List (String × String)) (canonicalizedResource : String) : String :=
  let amzLines := jsSortStrings
    ((headers.filter (fun p => jsStartsWith (jsToLower p.1) "x-amz-")).map
      (fun p => jsToLower p.1 ++ ":" ++ p.2))
  let canonicalizedAmzHeaders :=
    if amzLines ≠ [] then jsJoin "\n" amzLines ++ "\n" else ""
  jsJoin "\n" [method, contentMD5, contentType, date, canonicalizedAmzHeaders ++ canonicalizedResource]

/-- The amended V2 string-to-sign, matching the code: `x-amz-*` header names
sorted lexicographically in their original case, then lower-cased in their
`name:value` lines, newline-joined, empty if none, followed by the
canonicalized resource. -/
def specV2StringToSignAmended (method contentMD5 contentType date : String)
    (headers : List (String × String)) (canonicalizedResource : String) : String :=
  let amzNames := jsSortStrings ((jsKeys headers).filter (fun h => jsStartsWith (jsToLower h) "x-amz-"))
  let amzLines := amzNames.map (fun h => jsToLower h ++ ":" ++ (jsGet headers h).getD "undefined")
  let canonicalizedAmzHeaders :=
    if amzLines ≠ [] then jsJoin "\n" amzLines ++ "\n" else ""
  jsJoin "\n" [method, contentMD5, contentType, date, canonicalizedAmzHeaders ++ canonicalizedResource]

/-- Configuration owned by a `SupabaseStorage` instance. -/
structure SupabaseCfg where
  supabaseUrl : String
  anonKey : String
  serviceRoleKey : String
  bucket : String
  baseUrl : String
deriving DecidableEq

/-- Configuration owned by a `TelegramStorage` instance. -/
structure TelegramCfg where
  botToken : String
  chatId : String
  baseUrl : String
deriving DecidableEq

/-- An HTTP response as the providers observe it: status code plus the
diagnostic text extracted from the body. -/
structure FetchResponse where
  status : Nat
  body : String
deriving DecidableEq

/-- JS `Response.ok`: status in the inclusive range 200-299. -/
def FetchResponse.ok (r : FetchResponse) : Bool :=
  200 ≤ r.status && r.status ≤ 299

/-- The outcome of one `fetch` call: a response, or a thrown network error
with its message. -/
abbrev FetchResult := Except String FetchResponse

/-- The `{success, message}` record returned by every provider `deleteFile`. -/
structure DeleteResult where
  success : Bool
  message : String
deriving DecidableEq

/-- `S3Storage.deleteFile`, as a function of the outcome of the signed
DELETE request: `response.ok || response.status === 404` counts as success,
any other response or thrown error is caught and reported in the record. -/
def S3Storage.deleteFile (fetchResult : FetchResult) : DeleteResult :=
  match fetchResult with
  | .error e => { success := false, message := e }
  | .ok resp =>
    if resp.ok || resp.status == 404 then
      { success := true, message := "文件删除成功" }
    else
      { success := false, message := "删除失败: " ++ toString resp.status ++ " " ++ resp.body }

/-- `MinIOStorage.deleteFile`, same 404-tolerant shape as the S3 variant. -/
def MinIOStorage.deleteFile (fetchResult : FetchResult) : DeleteResult :=
  match fetchResult with
  | .error e => { success := false, message := e }
  | .ok resp =>
    if resp.ok || resp.status == 404 then
      { success := true, message := "文件删除成功" }
    else
      { success := false, message := "删除失败: " ++ toString resp.status ++ " " ++ resp.body }

/-- `SupabaseStorage.deleteFile`: only `response.ok` counts as success; any
non-2xx response (404 included) is thrown and caught into a failure record. -/
def SupabaseStorage.deleteFile (fetchResult : FetchResult) : DeleteResult :=
  match fetchResult with
  | .error e => { success := false, message := e }
  | .ok resp =>
    if resp.ok then
      { success := true, message := "文件删除成功" }
    else
      { success := false, message := "删除失败: " ++ toString resp.status ++ " " ++ resp.body }

/-- The outcome of one `fetch` attempt inside `TelegramStorage.sendToTelegram`:
a parsed OK response, a well-formed non-ok response carrying
`description || default`, or a thrown network error. -/
inductive TgFetchOutcome where
  | respOk (data : String)
  | respErr (desc : String)
  | netFail
deriving DecidableEq

/-- The `{success, data?/error?}` value returned by `sendToTelegram`. -/
inductive TgSendResult where
  | success (data : String)
  | failure (error : String)
deriving DecidableEq

/-- `TelegramStorage.sendToTelegram`: retries only thrown (network-level)
fetch failures, at most `MAX_RETRIES = 2` additional attempts, sleeping
`1000 * (retryCount + 1)` ms before each retry; a well-formed non-ok
response returns a failure immediately.  `oracle n` is the outcome of the
attempt with retry counter `n`; the second component collects the backoff
delays actually slept, in order. -/
def TelegramStorage.sendToTelegram (oracle : Nat → TgFetchOutcome)
    (retryCount : Nat) : TgSendResult × List Nat :=
  match oracle retryCount with
  | .respOk d => (.success d, [])
  | .respErr desc => (.failure desc, [])
  | .netFail =>
    if h : retryCount < 2 then
      let r := TelegramStorage.sendToTelegram oracle (retryCount + 1)
      (r.1, (1000 * (retryCount + 1)) :: r.2)
    else
      (.failure "网络连接失败", [])
termination_by 2 - retryCount
decreasing_by omega

/-- JS `String.prototype.split` with a single-character separator. -/
def splitOnChar (c : Char) : List Char → List (List Char)
  | [] => [[]]
  | x :: xs =>
    let r := splitOnChar c xs
    if x = c then [] :: r
    else
      match r with
      | [] => [[x]]
      | y :: ys => (x :: y) :: ys

/-- JS `name.split('.').pop().toLowerCase()` continued: extension extraction. -/
def jsExtension (name : String) : String :=
  jsToLower (String.mk ((splitOnChar '.' name.data).getLastD []))

/-- `StorageProvider.generateFileId`: `<epochMillis>_<random>.<ext>`.
`nowMs` models `Date.now()` and `rand` models
`Math.random().toString(36).substring(2, 8)`. -/
def StorageProvider.generateFileId (nowMs : Nat) (rand : String)
    (originalName : String) : String :=
  toString nowMs ++ "_" ++ rand ++ "." ++ jsExtension originalName

/-- Decidable check for the spec pattern `^[0-9]+_[a-z0-9]\x7b6\x7d\.png$`. -/
def isAsciiDigitChar (c : Char) : Bool := '0' ≤ c && c ≤ '9'

/-- Lowercase base-36 alphabet membership (`[a-z0-9]`). -/
def isLowerAlnumChar (c : Char) : Bool :=
  ('a' ≤ c && c ≤ 'z') || ('0' ≤ c && c ≤ '9')

/-- Matcher for the spec pattern `^[0-9]+_[a-z0-9]\x7b6\x7d\.png$`. -/
def matchesUploadIdPattern (s : String) : Bool :=
  let cs := s.data
  let ts := cs.takeWhile isAsciiDigitChar
  match cs.drop ts.length with
  | '_' :: r =>
    decide (0 < ts.length) && decide (r.length = 10) &&
      (r.take 6).all isLowerAlnumChar && decide (r.drop 6 = ['.', 'p', 'n', 'g'])
  | _ => false

/-- Matcher for the amended pattern `^[0-9]+_[a-z0-9]\x7b0,6\x7d\.png$`:
the random part of the generated name has at most six characters, because
`Math.random().toString(36).substring(2, 8)` can be shorter than six when
the base-36 fraction representation is short. -/
def matchesUploadIdPatternLoose (s : String) : Bool :=
  let cs := s.data
  let ts := cs.takeWhile isAsciiDigitChar
  match cs.drop ts.length with
  | '_' :: r =>
    decide (0 < ts.length) && decide (4 ≤ r.length) && decide (r.length ≤ 10) &&
      (r.take (r.length - 4)).all isLowerAlnumChar &&
      decide (r.drop (r.length - 4) = ['.', 'p', 'n', 'g'])
  | _ => false

/-- The declared file payload metadata (`file.name`, `file.type`,
`file.size`) handed to an upload. -/
structure FileData where
  name : String
  type : String
  size : Nat
deriving DecidableEq

/-- The options bag consumed by the storage layer.  Empty strings model
absent (falsy) entries; `prov` is `options.provider`, `pfx` is
`options.prefix`. -/
structure UploadOptions where
  fileName : String := ""
  pfx : String := ""
  prov : String := ""
deriving DecidableEq

/-- The result record built by `S3Storage.uploadFile` on success. -/
structure S3UploadResult where
  fileId : String
  originalName : String
  size : Nat
  type : String
  url : String
  provider : String
  bucket : String
  key : String
  etag : String
deriving DecidableEq

/-- `S3Storage.uploadFile`: chooses the object key from
`options.fileName || generateFileId(file.name)` and an optional prefix,
PUTs the payload (outcome abstracted as `putResult`, an `etag` on success),
and assembles the result record; a failed PUT is rethrown with an
`S3 上传失败:` prefix. -/
def S3Storage.uploadFile (cfg : S3Cfg) (nowMs : Nat) (rand : String)
    (file : FileData) (options : UploadOptions)
    (putResult : Except String String) : Except String S3UploadResult :=
  let fileName := if options.fileName ≠ "" then options.fileName
    else StorageProvider.generateFileId nowMs rand file.name
  let contentType := if file.type ≠ "" then file.type else "application/octet-stream"
  let key := if options.pfx ≠ "" then options.pfx ++ "/" ++ fileName else fileName
  match putResult with
  | .error e => .error ("S3 上传失败: " ++ e)
  | .ok etag =>
    .ok { fileId := key, originalName := file.name, size := file.size,
          type := contentType, url := cfg.publicUrl ++ "/" ++ key,
          provider := "s3", bucket := cfg.bucket, key := key, etag := etag }

/-- The configuration environment (worker bindings) read by the registry and
the provider constructors.  Empty string models an absent binding; JS
truthiness on these values is non-emptiness. -/
structure Env where
  TG_Bot_Token : String := ""
  TG_Chat_ID : String := ""
  AWS_ACCESS_KEY_ID : String := ""
  AWS_SECRET_ACCESS_KEY : String := ""
  AWS_REGION : String := ""
  AWS_S3_BUCKET : String := ""
  AWS_S3_ENDPOINT : String := ""
  AWS_S3_PUBLIC_URL : String := ""
  MINIO_ENDPOINT : String := ""
  MINIO_ACCESS_KEY : String := ""
  MINIO_SECRET_KEY : String := ""
  MINIO_BUCKET : String := ""
  MINIO_REGION : String := ""
  MINIO_USE_SSL : String := ""
  MINIO_PORT : String := ""
  SUPABASE_URL : String := ""
  SUPABASE_ANON_KEY : String := ""
  SUPABASE_SERVICE_ROLE_KEY : String := ""
  SUPABASE_BUCKET : String := ""
  DEFAULT_STORAGE_PROVIDER : String := ""
deriving DecidableEq

/-- The field assignments of the `TelegramStorage` constructor. -/
def TelegramStorage.cfgOf (env : Env) : TelegramCfg :=
  { botToken := env.TG_Bot_Token, chatId := env.TG_Chat_ID,
    baseUrl := "https://api.telegram.org/bot" ++ env.TG_Bot_Token }

/-- The `TelegramStorage` constructor: throws unless both
`TG_Bot_Token` and `TG_Chat_ID` are truthy. -/
def TelegramStorage.mk (env : Env) : Except String TelegramCfg :=
  if env.TG_Bot_Token = "" ∨ env.TG_Chat_ID = "" then
    .error "Telegram 存储需要配置 TG_Bot_Token 和 TG_Chat_ID"
  else .ok (TelegramStorage.cfgOf env)

/-- The field assignments of the `S3Storage` constructor (with the
`us-east-1` region default and the derived endpoint/public-URL defaults). -/
def S3Storage.cfgOf (env : Env) : S3Cfg :=
  let region := if env.AWS_REGION ≠ "" then env.AWS_REGION else "us-east-1"
  let bucket := env.AWS_S3_BUCKET
  { accessKeyId := env.AWS_ACCESS_KEY_ID,
    secretAccessKey := env.AWS_SECRET_ACCESS_KEY,
    region := region,
    bucket := bucket,
    endpoint := if env.AWS_S3_ENDPOINT ≠ "" then env.AWS_S3_ENDPOINT
      else "https://s3." ++ region ++ ".amazonaws.com",
    publicUrl := if env.AWS_S3_PUBLIC_URL ≠ "" then env.AWS_S3_PUBLIC_URL
      else "https://" ++ bucket ++ ".s3." ++ region ++ ".amazonaws.com" }

/-- The `S3Storage` constructor: throws unless `AWS_ACCESS_KEY_ID`,
`AWS_SECRET_ACCESS_KEY` and `AWS_S3_BUCKET` are all truthy. -/
def S3Storage.mk (env : Env) : Except String S3Cfg :=
  if env.AWS_ACCESS_KEY_ID = "" ∨ env.AWS_SECRET_ACCESS_KEY = "" ∨ env.AWS_S3_BUCKET = "" then
    .error "S3 存储需要配置 AWS_ACCESS_KEY_ID, AWS_SECRET_ACCESS_KEY 和 AWS_S3_BUCKET"
  else .ok (S3Storage.cfgOf env)

/-- The field assignments of the `MinIOStorage` constructor. -/
def MinIOStorage.cfgOf (env : Env) : MinIOCfg :=
  let useSSL := env.MINIO_USE_SSL ≠ "false"
  let port := if env.MINIO_PORT ≠ "" then (env.MINIO_PORT.toNat?).getD 0
    else if useSSL then 443 else 80
  let protocol := if useSSL then "https" else "http"
  let portSuffix := if (useSSL && port == 443) || (!useSSL && port == 80) then ""
    else ":" ++ toString port
  { endpoint := env.MINIO_ENDPOINT,
    accessKey := env.MINIO_ACCESS_KEY,
    secretKey := env.MINIO_SECRET_KEY,
    bucket := env.MINIO_BUCKET,
    region := if env.MINIO_REGION ≠ "" then env.MINIO_REGION else "us-east-1",
    useSSL := useSSL,
    port := port,
    baseUrl := protocol ++ "://" ++ env.MINIO_ENDPOINT ++ portSuffix }

/-- The `MinIOStorage` constructor: throws unless `MINIO_ENDPOINT`,
`MINIO_ACCESS_KEY`, `MINIO_SECRET_KEY` and `MINIO_BUCKET` are all truthy. -/
def MinIOStorage.mk (env : Env) : Except String MinIOCfg :=
  if env.MINIO_ENDPOINT = "" ∨ env.MINIO_ACCESS_KEY = "" ∨
      env.MINIO_SECRET_KEY = "" ∨ env.MINIO_BUCKET = "" then
    .error "MinIO 存储需要配置 MINIO_ENDPOINT, MINIO_ACCESS_KEY, MINIO_SECRET_KEY 和 MINIO_BUCKET"
  else .ok (MinIOStorage.cfgOf env)

/-- The field assignments of the `SupabaseStorage` constructor. -/
def SupabaseStorage.cfgOf (env : Env) : SupabaseCfg :=
  { supabaseUrl := env.SUPABASE_URL,
    anonKey := env.SUPABASE_ANON_KEY,
    serviceRoleKey := env.SUPABASE_SERVICE_ROLE_KEY,
    bucket := env.SUPABASE_BUCKET,
    baseUrl := env.SUPABASE_URL ++ "/storage/v1" }

/-- The `SupabaseStorage` constructor: throws unless `SUPABASE_URL`,
`SUPABASE_ANON_KEY` and `SUPABASE_BUCKET` are all truthy. -/
def SupabaseStorage.mk (env : Env) : Except String SupabaseCfg :=
  if env.SUPABASE_URL = "" ∨ env.SUPABASE_ANON_KEY = "" ∨ env.SUPABASE_BUCKET = "" then
    .error "Supabase 存储需要配置 SUPABASE_URL, SUPABASE_ANON_KEY 和 SUPABASE_BUCKET"
  else .ok (SupabaseStorage.cfgOf env)

/-- A registered provider variant, tagged with its configuration. -/
inductive ProviderCfg where
  | telegram (c : TelegramCfg)
  | s3 (c : S3Cfg)
  | minio (c : MinIOCfg)
  | supabase (c : SupabaseCfg)
deriving DecidableEq

/-- The guarded `telegram` registration step of
`StorageManager.initializeProviders`. -/
def StorageManager.registerTelegram (env : Env) (ps : List (String × ProviderCfg)) :
    Except String (List (String × ProviderCfg)) :=
  if env.TG_Bot_Token ≠ "" ∧ env.TG_Chat_ID ≠ "" then
    match TelegramStorage.mk env with
    | .error e => .error e
    | .ok c => .ok (ps ++ [("telegram", ProviderCfg.telegram c)])
  else .ok ps

/-- The guarded `s3` registration step of `StorageManager.initializeProviders`. -/
def StorageManager.registerS3 (env : Env) (ps : List (String × ProviderCfg)) :
    Except String (List (String × ProviderCfg)) :=
  if env.AWS_ACCESS_KEY_ID ≠ "" ∧ env.AWS_SECRET_ACCESS_KEY ≠ "" ∧ env.AWS_S3_BUCKET ≠ "" then
    match S3Storage.mk env with
    | .error e => .error e
    | .ok c => .ok (ps ++ [("s3", ProviderCfg.s3 c)])
  else .ok ps

/-- The guarded `minio` registration step of
`StorageManager.initializeProviders`. -/
def StorageManager.registerMinIO (env : Env) (ps : List (String × ProviderCfg)) :
    Except String (List (String × ProviderCfg)) :=
  if env.MINIO_ENDPOINT ≠ "" ∧ env.MINIO_ACCESS_KEY ≠ "" ∧
      env.MINIO_SECRET_KEY ≠ "" ∧ env.MINIO_BUCKET ≠ "" then
    match MinIOStorage.mk env with
    | .error e => .error e
    | .ok c => .ok (ps ++ [("minio", ProviderCfg.minio c)])
  else .ok ps

/-- The guarded `supabase` registration step of
`StorageManager.initializeProviders`. -/
def StorageManager.registerSupabase (env : Env) (ps : List (String × ProviderCfg)) :
    Except String (List (String × ProviderCfg)) :=
  if env.SUPABASE_URL ≠ "" ∧ env.SUPABASE_ANON_KEY ≠ "" ∧ env.SUPABASE_BUCKET ≠ "" then
    match SupabaseStorage.mk env with
    | .error e => .error e
    | .ok c => .ok (ps ++ [("supabase", ProviderCfg.supabase c)])
  else .ok ps

/-- `StorageManager.initializeProviders`: scans the fixed ordered set of
backend configurations (telegram, s3, minio, supabase), registering each
variant under its short name only when its guard holds; a constructor throw
would propagate as an error. -/
def StorageManager.initializeProviders (env : Env) :
    Except String (List (String × ProviderCfg)) :=
  match StorageManager.registerTelegram env [] with
  | .error e => .error e
  | .ok l1 =>
    match StorageManager.registerS3 env l1 with
    | .error e => .error e
    | .ok l2 =>
      match StorageManager.registerMinIO env l2 with
      | .error e => .error e
      | .ok l3 => StorageManager.registerSupabase env l3

/-- `StorageManager.getProvider`: map lookup that throws
`存储提供商 ... 未配置或不可用` on a miss (the ProviderNotFoundError). -/
def StorageManager.getProvider {α : Type} (providers : List (String × α))
    (providerName : String) : Except String α :=
  match providers.find? (fun p => p.1 = providerName) with
  | some p => .ok p.2
  | none => .error ("存储提供商 " ++ providerName ++ " 未配置或不可用")

/-- `StorageManager.getAvailableProviders`: the registered provider names in
registration order. -/
def StorageManager.getAvailableProviders {α : Type}
    (providers : List (String × α)) : List String :=
  providers.map (fun p => p.1)

/-- A JS value appearing in a result envelope. -/
inductive JVal where
  | str (s : String)
  | num (n : Nat)
deriving DecidableEq

/-- A JS result object: ordered association list with distinct keys. -/
abbrev JObj := List (String × JVal)

/-- Key lookup in a JS object. -/
def jobjGet (o : JObj) (k : String) : Option JVal :=
  (o.find? (fun p => p.1 = k)).map (fun p => p.2)

/-- The effect of `\x7b...result, k: v\x7d` on one key: replace the value in
place when the key exists, append it otherwise. -/
def jobjSet (o : JObj) (k : String) (v : JVal) : JObj :=
  if (o.find? (fun p => p.1 = k)).isSome then
    o.map (fun p => if p.1 = k then (k, v) else p)
  else o ++ [(k, v)]

/-- A provider as the `StorageManager` dispatch layer sees it: its `upload`
behaviour and its health-check behaviour (`none` models an instance without
a `healthCheck` function; `.error` models a throw). -/
structure Provider where
  upload : FileData → UploadOptions → Except String JObj
  health : Option (Except String JObj)

/-- The provider-name resolution chain of `StorageManager.uploadFile`:
`options.provider || env.DEFAULT_STORAGE_PROVIDER || 'telegram'`. -/
def StorageManager.resolvedProviderName (env : Env) (options : UploadOptions) : String :=
  if options.prov ≠ "" then options.prov
  else if env.DEFAULT_STORAGE_PROVIDER ≠ "" then env.DEFAULT_STORAGE_PROVIDER
  else "telegram"

/-- `StorageManager.uploadFile`: resolves the named-or-default provider,
delegates to its `upload`, stamps the result with the resolved provider name
and the current timestamp, and rewraps provider errors. -/
def StorageManager.uploadFile (env : Env) (providers : List (String × Provider))
    (nowMs : Nat) (file : FileData) (options : UploadOptions) : Except String JObj :=
  let providerName := StorageManager.resolvedProviderName env options
  match StorageManager.getProvider providers providerName with
  | .error e => .error e
  | .ok provider =>
    match provider.upload file options with
    | .error e => .error ("上传到 " ++ providerName ++ " 失败: " ++ e)
    | .ok result =>
      .ok (jobjSet (jobjSet result "provider" (JVal.str providerName)) "timestamp" (JVal.num nowMs))

/-- The sequential loop of `StorageManager.uploadFiles`: each file is
uploaded in turn, successes and `(fileName, errorMessage)` failures being
collected in input order. -/
def StorageManager.uploadFilesLoop (u : FileData → Except String JObj) :
    List FileData → List JObj × List (String × String)
  | [] => ([], [])
  | f :: fs =>
    let rest := StorageManager.uploadFilesLoop u fs
    match u f with
    | .ok r => (r :: rest.1, rest.2)
    | .error e => (rest.1, (f.name, e) :: rest.2)

/-- The summary record returned by `StorageManager.uploadFiles`. -/
structure UploadManyResult where
  success : List JObj
  errors : List (String × String)
  total : Nat
  successCount : Nat
  errorCount : Nat
deriving DecidableEq

/-- `StorageManager.uploadFiles`: sequential batch upload over
`StorageManager.uploadFile`, with the `\x7btotal, successCount, errorCount\x7d`
summary. -/
def StorageManager.uploadFiles (env : Env) (providers : List (String × Provider))
    (nowMs : Nat) (files : List FileData) (options : UploadOptions) : UploadManyResult :=
  let r := StorageManager.uploadFilesLoop
    (fun f => StorageManager.uploadFile env providers nowMs f options) files
  { success := r.1, errors := r.2, total := files.length,
    successCount := r.1.length, errorCount := r.2.length }

/-- `StorageManager.healthCheck`: runs every registered provider health
check, converting a throw into a `\x7bstatus: "error", message\x7d` record and a
missing `healthCheck` function into a `status: "unknown"` record. -/
def StorageManager.healthCheck (providers : List (String × Provider)) :
    List (String × JObj) :=
  providers.map (fun p =>
    match p.2.health with
    | some (.ok h) => (p.1, h)
    | some (.error m) => (p.1, [("status", JVal.str "error"), ("message", JVal.str m)])
    | none => (p.1, [("status", JVal.str "unknown"), ("message", JVal.str "未实现健康检查")]))

/-- Concrete stand-in HMAC-SHA256 used to instantiate theorems. -/
def hmacW : HmacFn := fun k d => k ++ d

/-- Concrete stand-in UTF-8 encoder used to instantiate theorems. -/
def encW : EncodeFn := fun s => s.data.map Char.toNat

/-- Concrete stand-in hex-SHA-256 used to instantiate theorems. -/
def shaW : ShaHexFn := fun s => s ++ "#"

/-- Concrete S3 configuration used to instantiate theorems. -/
def cfgW : S3Cfg :=
  { accessKeyId := "AKIA", secretAccessKey := "SECRET", region := "us-east-1",
    bucket := "bkt", endpoint := "https://s3.us-east-1.amazonaws.com",
    publicUrl := "https://bkt.s3.us-east-1.amazonaws.com" }

/-- Concrete SigV4 request headers used to instantiate theorems. -/
def headersW : List (String × String) :=
  [("Host", "bkt.s3.us-east-1.amazonaws.com"),
   ("x-amz-date", "20240101T000000Z"),
   ("x-amz-content-sha256", "PAYLOADHASH")]

/-- Concrete MinIO configuration used to instantiate theorems. -/
def minioCfgW : MinIOCfg :=
  { endpoint := "minio.example", accessKey := "AK", secretKey := "SK",
    bucket := "bkt", region := "us-east-1", useSSL := true, port := 443,
    baseUrl := "https://minio.example" }

/-- Mixed-case `x-amz-*` headers on which sorting before and after
lower-casing disagree. -/
def v2HeadersW : List (String × String) :=
  [("Date", "Mon, 01 Jan 2024 00:00:00 GMT"),
   ("x-amz-meta-B", "1"),
   ("x-amz-meta-a", "2"),
   ("Content-Type", "image/png")]

/-- Concrete stand-in for base64-of-HMAC-SHA1 keeping the data visible. -/
def hbIdW : HmacSha1B64Fn := fun _ d => d

/-- Concrete stand-in for base64-of-HMAC-SHA1 mixing key and data. -/
def hbW : HmacSha1B64Fn := fun k d => k ++ "|" ++ d

/-- Concrete stand-in for `encodeURIComponent`. -/
def uriEncW : UriEncodeFn := fun s => "enc:" ++ s

/-- Environment with only the three s3-required bindings populated. -/
def envOnlyS3W : Env :=
  { AWS_ACCESS_KEY_ID := "AKIA", AWS_SECRET_ACCESS_KEY := "SECRET",
    AWS_S3_BUCKET := "bkt" }

/-- Environment with no bindings populated. -/
def envEmptyW : Env := {}

/-- Concrete provider fixture: rejects files named `bad`, otherwise returns
a result carrying the file name; health check succeeds. -/
def provW : Provider :=
  { upload := fun f _ =>
      if f.name = "bad" then .error "rejected"
      else .ok [("fileId", JVal.str f.name)],
    health := some (.ok [("status", JVal.str "healthy")]) }

/-- Concrete provider fixture whose health check throws. -/
def provBadHealthW : Provider :=
  { upload := fun _ _ => .error "unused",
    health := some (.error "boom") }

/-- Claim C1: for every method, canonical URI, canonical query string,
headers containing `x-amz-date` and `x-amz-content-sha256`, and date stamp,
`S3Storage.generateSignature` derives the signing key by the four chained
HMAC-SHA256 operations, signs the string-to-sign built from the hex-SHA256
of the canonical request, and returns the
`AWS4-HMAC-SHA256 Credential=..., SignedHeaders=..., Signature=...` header
value with `;`-joined sorted lower-cased header names. -/
theorem s3_generateSignature_matches_sigv4_spec
    (hmac : HmacFn) (sha : ShaHexFn) (enc : EncodeFn) (cfg : S3Cfg)
    (method canonicalUri canonicalQueryString dateStamp amzDate payloadHash : String)
    (headers : List (String × String))
    (hdate : jsGet headers "x-amz-date" = some amzDate)
    (hsha256 : jsGet headers "x-amz-content-sha256" = some payloadHash) :
    S3Storage.generateSignature hmac sha enc cfg method canonicalUri
        canonicalQueryString headers dateStamp =
      specSigV4Authorization hmac sha enc cfg method canonicalUri
        canonicalQueryString headers dateStamp amzDate payloadHash := by
  simp only [S3Storage.generateSignature, specSigV4Authorization,
    S3Storage.getSignatureKey, jsJoin, hdate, hsha256, Option.getD_some]
  simp [String.append_assoc]

/-- Witness for C1 at concrete inputs. -/
theorem s3_generateSignature_matches_sigv4_spec_witness :
    S3Storage.generateSignature hmacW shaW encW cfgW "PUT" "/key" "" headersW "20240101" =
      specSigV4Authorization hmacW shaW encW cfgW "PUT" "/key" "" headersW
        "20240101" "20240101T000000Z" "PAYLOADHASH" :=
  s3_generateSignature_matches_sigv4_spec hmacW shaW encW cfgW "PUT" "/key" ""
    "20240101" "20240101T000000Z" "PAYLOADHASH" headersW rfl rfl

/-- A string of the form `a ++ ":" ++ b` is never empty. -/
theorem append_colon_ne_empty (a b : String) : a ++ ":" ++ b ≠ "" := by
  intro h
  have h2 := congrArg String.data h
  simp [String.data_append] at h2

/-- `jsJoin "\n"` of a list starting with a nonempty string is nonempty. -/
theorem jsJoin_ne_empty (x : String) (xs : List String) (hx : x ≠ "") :
    jsJoin "\n" (x :: xs) ≠ "" := by
  cases xs with
  | nil => simpa [jsJoin] using hx
  | cons y ys =>
    simp only [jsJoin]
    intro h
    have h2 := congrArg String.data h
    simp [String.data_append] at h2

/-- The non-emptiness test on a newline-join of nonempty lines coincides
with the non-emptiness test on the line list itself. -/
theorem if_join_ne_empty (l : List String) (hall : ∀ x ∈ l, x ≠ "") :
    (if jsJoin "\n" l ≠ "" then jsJoin "\n" l ++ "\n" else "") =
      (if l ≠ [] then jsJoin "\n" l ++ "\n" else "") := by
  cases l with
  | nil => simp [jsJoin]
  | cons x xs =>
    have hx : x ≠ "" := hall x (by simp)
    have hne := jsJoin_ne_empty x xs hx
    simp [hne]

/-- Claim C2 (amended): the legacy V2 signer builds the string-to-sign with
the `x-amz-*` header names sorted in their original case and then
lower-cased (rather than lower-cased first), and returns
`AWS <accessKey>:<base64(HMAC-SHA1(secretKey, stringToSign))>`; the
presigned-URL variant replaces DATE by an epoch expiry and URL-encodes the
signature into the `AWSAccessKeyId`, `Expires`, `Signature` query
parameters. -/
theorem minio_v2_authorization_amended (hb : HmacSha1B64Fn) (cfg : MinIOCfg)
    (method key ct date : String) (headers : List (String × String))
    (hct : jsGet headers "Content-Type" = some ct)
    (hdate : jsGet headers "Date" = some date) :
    (MinIOStorage.generateAuthorization hb cfg method key headers =
      "AWS " ++ cfg.accessKey ++ ":" ++
        hb cfg.secretKey (specV2StringToSignAmended method "" ct date headers
          ("/" ++ cfg.bucket ++ "/" ++ key))) ∧
    (∀ (uriEnc : UriEncodeFn) (nowMs expiresIn : Nat) (k2 : String),
      MinIOStorage.generatePresignedUrl hb uriEnc cfg nowMs k2 expiresIn =
        cfg.baseUrl ++ "/" ++ cfg.bucket ++ "/" ++ k2 ++ "?AWSAccessKeyId=" ++
          cfg.accessKey ++ "&Expires=" ++ toString (nowMs / 1000 + expiresIn) ++
          "&Signature=" ++ uriEnc (hb cfg.secretKey
            ("GET" ++ "\n" ++ "" ++ "\n" ++ "" ++ "\n" ++
              toString (nowMs / 1000 + expiresIn) ++ "\n" ++
              ("/" ++ cfg.bucket ++ "/" ++ k2)))) := by
  constructor
  · have hall : ∀ x ∈ ((jsSortStrings ((jsKeys headers).filter
        (fun h => jsStartsWith (jsToLower h) "x-amz-"))).map
          (fun h => jsToLower h ++ ":" ++ (jsGet headers h).getD "undefined")), x ≠ "" := by
      intro x hx
      obtain ⟨h, _, rfl⟩ := List.mem_map.1 hx
      exact append_colon_ne_empty _ _
    simp only [MinIOStorage.generateAuthorization, MinIOStorage.stringToSign,
      specV2StringToSignAmended, hct, hdate, Option.getD_some, jsJoin]
    rw [if_join_ne_empty _ hall]
  · intro uriEnc nowMs expiresIn k2
    simp only [MinIOStorage.generatePresignedUrl, jsJoin]
    simp [← String.append_assoc]

/-- Counterexample to claim C2 as stated: with the mixed-case headers
`x-amz-meta-B`, `x-amz-meta-a` the code sorts the original names before
lower-casing, so the produced Authorization value differs from the one
prescribed by the spec reading that lower-cases the header lines first and
then sorts them. -/
theorem minio_v2_canonicalization_counterexample :
    MinIOStorage.generateAuthorization hbIdW minioCfgW "PUT" "k" v2HeadersW ≠
      "AWS " ++ minioCfgW.accessKey ++ ":" ++
        hbIdW minioCfgW.secretKey
          (specV2StringToSign "PUT" "" "image/png" "Mon, 01 Jan 2024 00:00:00 GMT"
            v2HeadersW ("/" ++ minioCfgW.bucket ++ "/" ++ "k")) := by
  decide

/-- Witness for the amended C2 theorem at concrete inputs. -/
theorem minio_v2_authorization_amended_witness :
    (MinIOStorage.generateAuthorization hbW minioCfgW "PUT" "k" v2HeadersW =
      "AWS " ++ minioCfgW.accessKey ++ ":" ++
        hbW minioCfgW.secretKey (specV2StringToSignAmended "PUT" "" "image/png"
          "Mon, 01 Jan 2024 00:00:00 GMT" v2HeadersW
          ("/" ++ minioCfgW.bucket ++ "/" ++ "k"))) ∧
    (MinIOStorage.generatePresignedUrl hbW uriEncW minioCfgW 1700000000123 "k2" 3600 =
      minioCfgW.baseUrl ++ "/" ++ minioCfgW.bucket ++ "/" ++ "k2" ++ "?AWSAccessKeyId=" ++
        minioCfgW.accessKey ++ "&Expires=" ++ toString (1700000000123 / 1000 + 3600) ++
        "&Signature=" ++ uriEncW (hbW minioCfgW.secretKey
          ("GET" ++ "\n" ++ "" ++ "\n" ++ "" ++ "\n" ++
            toString (1700000000123 / 1000 + 3600) ++ "\n" ++
            ("/" ++ minioCfgW.bucket ++ "/" ++ "k2")))) :=
  ⟨(minio_v2_authorization_amended hbW minioCfgW "PUT" "k" "image/png"
      "Mon, 01 Jan 2024 00:00:00 GMT" v2HeadersW rfl rfl).1,
   (minio_v2_authorization_amended hbW minioCfgW "PUT" "k" "image/png"
      "Mon, 01 Jan 2024 00:00:00 GMT" v2HeadersW rfl rfl).2 uriEncW 1700000000123 3600 "k2"⟩

/-- Normal form of the telegram registration step. -/
theorem registerTelegram_eq (env : Env) (ps : List (String × ProviderCfg)) :
    StorageManager.registerTelegram env ps = .ok (ps ++
      if env.TG_Bot_Token ≠ "" ∧ env.TG_Chat_ID ≠ "" then
        [("telegram", ProviderCfg.telegram (TelegramStorage.cfgOf env))] else []) := by
  by_cases h : env.TG_Bot_Token ≠ "" ∧ env.TG_Chat_ID ≠ ""
  · simp [StorageManager.registerTelegram, TelegramStorage.mk, h, h.1, h.2]
  · simp [StorageManager.registerTelegram, h]

/-- Normal form of the s3 registration step. -/
theorem registerS3_eq (env : Env) (ps : List (String × ProviderCfg)) :
    StorageManager.registerS3 env ps = .ok (ps ++
      if env.AWS_ACCESS_KEY_ID ≠ "" ∧ env.AWS_SECRET_ACCESS_KEY ≠ "" ∧ env.AWS_S3_BUCKET ≠ "" then
        [("s3", ProviderCfg.s3 (S3Storage.cfgOf env))] else []) := by
  by_cases h : env.AWS_ACCESS_KEY_ID ≠ "" ∧ env.AWS_SECRET_ACCESS_KEY ≠ "" ∧ env.AWS_S3_BUCKET ≠ ""
  · simp [StorageManager.registerS3, S3Storage.mk, h, h.1, h.2.1, h.2.2]
  · simp [StorageManager.registerS3, h]

/-- Normal form of the minio registration step. -/
theorem registerMinIO_eq (env : Env) (ps : List (String × ProviderCfg)) :
    StorageManager.registerMinIO env ps = .ok (ps ++
      if env.MINIO_ENDPOINT ≠ "" ∧ env.MINIO_ACCESS_KEY ≠ "" ∧
          env.MINIO_SECRET_KEY ≠ "" ∧ env.MINIO_BUCKET ≠ "" then
        [("minio", ProviderCfg.minio (MinIOStorage.cfgOf env))] else []) := by
  by_cases h : env.MINIO_ENDPOINT ≠ "" ∧ env.MINIO_ACCESS_KEY ≠ "" ∧
      env.MINIO_SECRET_KEY ≠ "" ∧ env.MINIO_BUCKET ≠ ""
  · simp [StorageManager.registerMinIO, MinIOStorage.mk, h, h.1, h.2.1, h.2.2.1, h.2.2.2]
  · simp [StorageManager.registerMinIO, h]

/-- Normal form of the supabase registration step. -/
theorem registerSupabase_eq (env : Env) (ps : List (String × ProviderCfg)) :
    StorageManager.registerSupabase env ps = .ok (ps ++
      if env.SUPABASE_URL ≠ "" ∧ env.SUPABASE_ANON_KEY ≠ "" ∧ env.SUPABASE_BUCKET ≠ "" then
        [("supabase", ProviderCfg.supabase (SupabaseStorage.cfgOf env))] else []) := by
  by_cases h : env.SUPABASE_URL ≠ "" ∧ env.SUPABASE_ANON_KEY ≠ "" ∧ env.SUPABASE_BUCKET ≠ ""
  · simp [StorageManager.registerSupabase, SupabaseStorage.mk, h, h.1, h.2.1, h.2.2]
  · simp [StorageManager.registerSupabase, h]

/-- Normal form of registry construction: each variant contributes its entry
exactly under its configuration guard, and construction always succeeds. -/
theorem initializeProviders_normal (env : Env) :
    StorageManager.initializeProviders env = .ok (
      (if env.TG_Bot_Token ≠ "" ∧ env.TG_Chat_ID ≠ "" then
        [("telegram", ProviderCfg.telegram (TelegramStorage.cfgOf env))] else []) ++
      (if env.AWS_ACCESS_KEY_ID ≠ "" ∧ env.AWS_SECRET_ACCESS_KEY ≠ "" ∧ env.AWS_S3_BUCKET ≠ "" then
        [("s3", ProviderCfg.s3 (S3Storage.cfgOf env))] else []) ++
      (if env.MINIO_ENDPOINT ≠ "" ∧ env.MINIO_ACCESS_KEY ≠ "" ∧
          env.MINIO_SECRET_KEY ≠ "" ∧ env.MINIO_BUCKET ≠ "" then
        [("minio", ProviderCfg.minio (MinIOStorage.cfgOf env))] else []) ++
      (if env.SUPABASE_URL ≠ "" ∧ env.SUPABASE_ANON_KEY ≠ "" ∧ env.SUPABASE_BUCKET ≠ "" then
        [("supabase", ProviderCfg.supabase (SupabaseStorage.cfgOf env))] else [])) := by
  simp [StorageManager.initializeProviders, registerTelegram_eq, registerS3_eq,
    registerMinIO_eq, registerSupabase_eq, List.append_assoc]

/-- A name absent from the registered names resolves to the
provider-not-found error. -/
theorem getProvider_not_found {α : Type} (ps : List (String × α)) (name : String)
    (h : name ∉ StorageManager.getAvailableProviders ps) :
    StorageManager.getProvider ps name =
      .error ("存储提供商 " ++ name ++ " 未配置或不可用") := by
  have hf : ps.find? (fun p => p.1 = name) = none := by
    rw [List.find?_eq_none]
    intro p hp
    simp only [decide_eq_true_eq]
    intro he
    exact h (by simpa [StorageManager.getAvailableProviders, he] using List.mem_map_of_mem Prod.fst hp)
  simp [StorageManager.getProvider, hf]

/-- Membership of a name among the keys of a conditional singleton entry. -/
theorem mem_map_fst_ite {c : Prop} [Decidable c] (name n2 : String) (cfg : ProviderCfg) :
    (name ∈ (List.map Prod.fst (if c then [(n2, cfg)] else []))) ↔ (name = n2 ∧ c) := by
  split <;> rename_i h <;> simp [h]

/-- Claim C3: a variant is registered under its short name iff all its
required configuration fields are non-empty, construction never fails, the
s3-only environment yields exactly `["s3"]`, the empty environment yields
`[]`, and resolving an absent name yields the provider-not-found error. -/
theorem registry_registration_iff (env : Env) (ps : List (String × ProviderCfg))
    (hok : StorageManager.initializeProviders env = .ok ps) :
    ("telegram" ∈ StorageManager.getAvailableProviders ps ↔
      env.TG_Bot_Token ≠ "" ∧ env.TG_Chat_ID ≠ "") ∧
    ("s3" ∈ StorageManager.getAvailableProviders ps ↔
      env.AWS_ACCESS_KEY_ID ≠ "" ∧ env.AWS_SECRET_ACCESS_KEY ≠ "" ∧ env.AWS_S3_BUCKET ≠ "") ∧
    ("minio" ∈ StorageManager.getAvailableProviders ps ↔
      env.MINIO_ENDPOINT ≠ "" ∧ env.MINIO_ACCESS_KEY ≠ "" ∧
        env.MINIO_SECRET_KEY ≠ "" ∧ env.MINIO_BUCKET ≠ "") ∧
    ("supabase" ∈ StorageManager.getAvailableProviders ps ↔
      env.SUPABASE_URL ≠ "" ∧ env.SUPABASE_ANON_KEY ≠ "" ∧ env.SUPABASE_BUCKET ≠ "") ∧
    (∀ name, name ∉ StorageManager.getAvailableProviders ps →
      StorageManager.getProvider ps name =
        .error ("存储提供商 " ++ name ++ " 未配置或不可用")) ∧
    (StorageManager.initializeProviders envOnlyS3W =
        .ok [("s3", ProviderCfg.s3 (S3Storage.cfgOf envOnlyS3W))] ∧
      StorageManager.getAvailableProviders
        [("s3", ProviderCfg.s3 (S3Storage.cfgOf envOnlyS3W))] = ["s3"]) ∧
    (StorageManager.initializeProviders envEmptyW = .ok [] ∧
      StorageManager.getAvailableProviders ([] : List (String × ProviderCfg)) = [] ∧
      StorageManager.getProvider ([] : List (String × ProviderCfg)) "s3" =
        .error ("存储提供商 " ++ "s3" ++ " 未配置或不可用")) := by
  have hnorm := initializeProviders_normal env
  rw [hok] at hnorm
  injection hnorm with h
  subst h
  refine ⟨?_, ?_, ?_, ?_, fun name h => getProvider_not_found _ _ h, ⟨rfl, rfl⟩, ⟨rfl, rfl, rfl⟩⟩ <;>
    simp [StorageManager.getAvailableProviders, List.map_append, List.mem_append, mem_map_fst_ite]

/-- Witness for C3 at the empty environment. -/
theorem registry_registration_iff_witness :
    ("telegram" ∈ StorageManager.getAvailableProviders ([] : List (String × ProviderCfg)) ↔
      envEmptyW.TG_Bot_Token ≠ "" ∧ envEmptyW.TG_Chat_ID ≠ "") ∧
    ("s3" ∈ StorageManager.getAvailableProviders ([] : List (String × ProviderCfg)) ↔
      envEmptyW.AWS_ACCESS_KEY_ID ≠ "" ∧ envEmptyW.AWS_SECRET_ACCESS_KEY ≠ "" ∧
        envEmptyW.AWS_S3_BUCKET ≠ "") ∧
    ("minio" ∈ StorageManager.getAvailableProviders ([] : List (String × ProviderCfg)) ↔
      envEmptyW.MINIO_ENDPOINT ≠ "" ∧ envEmptyW.MINIO_ACCESS_KEY ≠ "" ∧
        envEmptyW.MINIO_SECRET_KEY ≠ "" ∧ envEmptyW.MINIO_BUCKET ≠ "") ∧
    ("supabase" ∈ StorageManager.getAvailableProviders ([] : List (String × ProviderCfg)) ↔
      envEmptyW.SUPABASE_URL ≠ "" ∧ envEmptyW.SUPABASE_ANON_KEY ≠ "" ∧
        envEmptyW.SUPABASE_BUCKET ≠ "") ∧
    (∀ name, name ∉ StorageManager.getAvailableProviders ([] : List (String × ProviderCfg)) →
      StorageManager.getProvider ([] : List (String × ProviderCfg)) name =
        .error ("存储提供商 " ++ name ++ " 未配置或不可用")) ∧
    (StorageManager.initializeProviders envOnlyS3W =
        .ok [("s3", ProviderCfg.s3 (S3Storage.cfgOf envOnlyS3W))] ∧
      StorageManager.getAvailableProviders
        [("s3", ProviderCfg.s3 (S3Storage.cfgOf envOnlyS3W))] = ["s3"]) ∧
    (StorageManager.initializeProviders envEmptyW = .ok [] ∧
      StorageManager.getAvailableProviders ([] : List (String × ProviderCfg)) = [] ∧
      StorageManager.getProvider ([] : List (String × ProviderCfg)) "s3" =
        .error ("存储提供商 " ++ "s3" ++ " 未配置或不可用")) :=
  registry_registration_iff envEmptyW [] rfl

/-- Claim C10: registry construction never throws — every provider
constructor invoked from `initializeProviders` is guarded by exactly the
fields its missing-configuration check tests, so the error branch is
unreachable. -/
theorem registry_construction_never_throws (env : Env) :
    ∃ ps, StorageManager.initializeProviders env = .ok ps :=
  ⟨_, initializeProviders_normal env⟩

/-- `find?` by key over the in-place replacement map finds the replaced
entry. -/
theorem find?_map_replace (o : JObj) (k : String) (v : JVal)
    (h : (o.find? (fun p => p.1 = k)).isSome) :
    (o.map (fun p => if p.1 = k then (k, v) else p)).find? (fun p => p.1 = k) = some (k, v) := by
  induction o with
  | nil => simp at h
  | cons a t ih =>
    by_cases hak : a.1 = k
    · simp [List.find?_cons, hak]
    · have h2 : (t.find? (fun p => p.1 = k)).isSome := by
        simpa [List.find?_cons, hak] using h
      simpa [List.find?_cons, hak] using ih h2

/-- `find?` distributes over append when the first part has no match. -/
theorem find?_append_of_none {α : Type} (p : α → Bool) (l1 l2 : List α)
    (h : l1.find? p = none) : (l1 ++ l2).find? p = l2.find? p := by
  induction l1 with
  | nil => simp
  | cons a t ih =>
    by_cases ha : p a
    · simp [List.find?_cons, ha] at h
    · simp only [List.find?_cons, ha] at h ⊢
      simp only [List.cons_append, List.find?_cons, ha]
      exact ih h

/-- `find?` over an appended singleton with a different key is unchanged. -/
theorem find?_append_single_ne (o : JObj) (k k2 : String) (v : JVal) (hne : k2 ≠ k) :
    ((o ++ [(k, v)]).find? (fun p => p.1 = k2)) = o.find? (fun p => p.1 = k2) := by
  have h1 : ¬((k : String) = k2) := fun he => hne he.symm
  induction o with
  | nil => simp [List.find?_cons, h1]
  | cons a t ih => by_cases ha : a.1 = k2 <;> simp [List.find?_cons, ha, ih]

/-- Looking up the key just written by `jobjSet` returns the new value. -/
theorem jobjGet_jobjSet_self (o : JObj) (k : String) (v : JVal) :
    jobjGet (jobjSet o k v) k = some v := by
  unfold jobjSet
  by_cases h : (o.find? (fun p => p.1 = k)).isSome
  · simp [jobjGet, h, find?_map_replace o k v h]
  · have hn : o.find? (fun p => p.1 = k) = none := by
      cases hf : o.find? (fun p => p.1 = k) <;> simp_all
    simp [jobjGet, hn, find?_append_of_none _ _ _ hn, List.find?_cons]

/-- Replacement under a different key does not change a `find?` by the
original key. -/
theorem find?_map_replace_ne (o : JObj) (k k2 : String) (v : JVal) (hne : k2 ≠ k) :
    (o.map (fun p => if p.1 = k then (k, v) else p)).find? (fun p => p.1 = k2) =
      o.find? (fun p => p.1 = k2) := by
  induction o with
  | nil => simp
  | cons a t ih =>
    by_cases hak : a.1 = k
    · have h1 : ¬((k : String) = k2) := fun he => hne he.symm
      have h2 : ¬(a.1 = k2) := by rw [hak]; exact h1
      simp [List.find?_cons, hak, h1, h2, ih]
    · by_cases hak2 : a.1 = k2 <;> simp [List.find?_cons, hak, hak2, hne, ih]

/-- Looking up any other key after `jobjSet` is unchanged. -/
theorem jobjGet_jobjSet_ne (o : JObj) (k k2 : String) (v : JVal) (hne : k2 ≠ k) :
    jobjGet (jobjSet o k v) k2 = jobjGet o k2 := by
  unfold jobjSet
  by_cases h : (o.find? (fun p => p.1 = k)).isSome
  · simp [jobjGet, h, find?_map_replace_ne o k k2 v hne]
  · have hn : o.find? (fun p => p.1 = k) = none := by
      cases hf : o.find? (fun p => p.1 = k) <;> simp_all
    simp [jobjGet, hn, find?_append_single_ne o k k2 v hne]

/-- Claim C4: `StorageManager.uploadFile` resolves the provider named in the
options, else the configured default, else `telegram`, delegates to that
provider, and returns the provider result with `provider` set to the
resolved name and the current timestamp added, leaving every other field
unchanged. -/
theorem registry_upload_stamps_result (env : Env) (providers : List (String × Provider))
    (nowMs : Nat) (file : FileData) (options : UploadOptions) (p : Provider) (result : JObj)
    (hres : StorageManager.getProvider providers
      (StorageManager.resolvedProviderName env options) = .ok p)
    (hup : p.upload file options = .ok result) :
    ∃ out, StorageManager.uploadFile env providers nowMs file options = .ok out ∧
      jobjGet out "provider" =
        some (JVal.str (StorageManager.resolvedProviderName env options)) ∧
      jobjGet out "timestamp" = some (JVal.num nowMs) ∧
      ∀ k, k ≠ "provider" → k ≠ "timestamp" → jobjGet out k = jobjGet result k := by
  simp only [StorageManager.uploadFile, hres, hup]
  refine ⟨_, rfl, ?_, jobjGet_jobjSet_self _ _ _, ?_⟩
  · rw [jobjGet_jobjSet_ne _ _ _ _ (by decide)]
    exact jobjGet_jobjSet_self _ _ _
  · intro k hk1 hk2
    rw [jobjGet_jobjSet_ne _ _ _ _ hk2, jobjGet_jobjSet_ne _ _ _ _ hk1]

/-- Witness for C4 at concrete inputs. -/
theorem registry_upload_stamps_result_witness :
    ∃ out, StorageManager.uploadFile envEmptyW [("p", provW)] 99
        { name := "a.png", type := "image/png", size := 10 } { prov := "p" } = .ok out ∧
      jobjGet out "provider" =
        some (JVal.str (StorageManager.resolvedProviderName envEmptyW { prov := "p" })) ∧
      jobjGet out "timestamp" = some (JVal.num 99) ∧
      ∀ k, k ≠ "provider" → k ≠ "timestamp" →
        jobjGet out k = jobjGet [("fileId", JVal.str "a.png")] k :=
  registry_upload_stamps_result envEmptyW [("p", provW)] 99
    { name := "a.png", type := "image/png", size := 10 } { prov := "p" }
    provW [("fileId", JVal.str "a.png")] rfl rfl

/-- Claim C5 (amended): no provider delete ever throws — every outcome is
reported in the `{success, message}` record; `S3Storage` and `MinIOStorage`
treat a 404 backend response as success, so a second delete of the same
fileId succeeds; `SupabaseStorage` reports a 404 as a failure record
instead of a success. -/
theorem delete_404_amended (resp : FetchResponse) (h404 : resp.status = 404) :
    S3Storage.deleteFile (.ok resp) = { success := true, message := "文件删除成功" } ∧
    MinIOStorage.deleteFile (.ok resp) = { success := true, message := "文件删除成功" } ∧
    (SupabaseStorage.deleteFile (.ok resp)).success = false ∧
    (∀ e : String, (S3Storage.deleteFile (.error e)).success = false ∧
      (MinIOStorage.deleteFile (.error e)).success = false ∧
      (SupabaseStorage.deleteFile (.error e)).success = false) := by
  refine ⟨?_, ?_, ?_, fun e => ⟨rfl, rfl, rfl⟩⟩ <;>
    simp [S3Storage.deleteFile, MinIOStorage.deleteFile, SupabaseStorage.deleteFile,
      FetchResponse.ok, h404]

/-- Counterexample to claim C5 as stated: `SupabaseStorage.deleteFile` on a
404 backend response (the second delete of an already-deleted fileId)
reports failure, not success. -/
theorem supabase_delete_404_counterexample :
    (SupabaseStorage.deleteFile (.ok { status := 404, body := "Not Found" })).success = false := by
  decide

/-- Witness for the amended C5 theorem at a concrete 404 response. -/
theorem delete_404_amended_witness :
    S3Storage.deleteFile (.ok { status := 404, body := "x" }) =
      { success := true, message := "文件删除成功" } ∧
    MinIOStorage.deleteFile (.ok { status := 404, body := "x" }) =
      { success := true, message := "文件删除成功" } ∧
    (SupabaseStorage.deleteFile (.ok { status := 404, body := "x" })).success = false ∧
    (∀ e : String, (S3Storage.deleteFile (.error e)).success = false ∧
      (MinIOStorage.deleteFile (.error e)).success = false ∧
      (SupabaseStorage.deleteFile (.error e)).success = false) :=
  delete_404_amended { status := 404, body := "x" } rfl

/-- The two collected lists of the sequential batch loop are the
order-preserving projections of the per-file outcomes. -/
theorem uploadFilesLoop_spec (u : FileData → Except String JObj) (files : List FileData) :
    (StorageManager.uploadFilesLoop u files).1 =
      files.filterMap (fun f => (u f).toOption) ∧
    (StorageManager.uploadFilesLoop u files).2 =
      files.filterMap (fun f =>
        match u f with
        | .error e => some (f.name, e)
        | .ok _ => none) := by
  induction files with
  | nil => simp [StorageManager.uploadFilesLoop]
  | cons f fs ih =>
    cases hu : u f <;>
      simp [StorageManager.uploadFilesLoop, hu, Except.toOption, ih.1, ih.2]

/-- Claim C6: batch upload processes payloads sequentially in input order,
one failure never aborts the rest, and the summary satisfies
`total = inputs`, `successCount = successes`, `errorCount = failures`, with
successes in input order; in particular three payloads with the second
failing yield `successCount = 2`, `errorCount = 1`. -/
theorem registry_uploadFiles_summary (env : Env) (providers : List (String × Provider))
    (nowMs : Nat) (files : List FileData) (options : UploadOptions) :
    ((StorageManager.uploadFiles env providers nowMs files options).total = files.length ∧
     (StorageManager.uploadFiles env providers nowMs files options).success =
       files.filterMap (fun f =>
         (StorageManager.uploadFile env providers nowMs f options).toOption) ∧
     (StorageManager.uploadFiles env providers nowMs files options).errors =
       files.filterMap (fun f =>
         match StorageManager.uploadFile env providers nowMs f options with
         | .error e => some (f.name, e)
         | .ok _ => none) ∧
     (StorageManager.uploadFiles env providers nowMs files options).successCount =
       (StorageManager.uploadFiles env providers nowMs files options).success.length ∧
     (StorageManager.uploadFiles env providers nowMs files options).errorCount =
       (StorageManager.uploadFiles env providers nowMs files options).errors.length) ∧
    (∀ f1 f2 f3 r1 r3 e2,
      StorageManager.uploadFile env providers nowMs f1 options = .ok r1 →
      StorageManager.uploadFile env providers nowMs f2 options = .error e2 →
      StorageManager.uploadFile env providers nowMs f3 options = .ok r3 →
      (StorageManager.uploadFiles env providers nowMs [f1, f2, f3] options).successCount = 2 ∧
      (StorageManager.uploadFiles env providers nowMs [f1, f2, f3] options).errorCount = 1 ∧
      (StorageManager.uploadFiles env providers nowMs [f1, f2, f3] options).success = [r1, r3] ∧
      (StorageManager.uploadFiles env providers nowMs [f1, f2, f3] options).errors =
        [(f2.name, e2)]) := by
  constructor
  · obtain ⟨hs, he⟩ := uploadFilesLoop_spec
      (fun f => StorageManager.uploadFile env providers nowMs f options) files
    exact ⟨rfl, hs, he, rfl, rfl⟩
  · intro f1 f2 f3 r1 r3 e2 h1 h2 h3
    simp [StorageManager.uploadFiles, StorageManager.uploadFilesLoop, h1, h2, h3]

/-- Witness for C6: three payloads of which the second fails. -/
theorem registry_uploadFiles_summary_witness :
    (StorageManager.uploadFiles envEmptyW [("p", provW)] 99
      [{ name := "a", type := "t", size := 1 }, { name := "bad", type := "t", size := 1 },
       { name := "c", type := "t", size := 1 }] { prov := "p" }).successCount = 2 ∧
    (StorageManager.uploadFiles envEmptyW [("p", provW)] 99
      [{ name := "a", type := "t", size := 1 }, { name := "bad", type := "t", size := 1 },
       { name := "c", type := "t", size := 1 }] { prov := "p" }).errorCount = 1 ∧
    (StorageManager.uploadFiles envEmptyW [("p", provW)] 99
      [{ name := "a", type := "t", size := 1 }, { name := "bad", type := "t", size := 1 },
       { name := "c", type := "t", size := 1 }] { prov := "p" }).success =
      [[("fileId", JVal.str "a"), ("provider", JVal.str "p"), ("timestamp", JVal.num 99)],
       [("fileId", JVal.str "c"), ("provider", JVal.str "p"), ("timestamp", JVal.num 99)]] ∧
    (StorageManager.uploadFiles envEmptyW [("p", provW)] 99
      [{ name := "a", type := "t", size := 1 }, { name := "bad", type := "t", size := 1 },
       { name := "c", type := "t", size := 1 }] { prov := "p" }).errors =
      [("bad", "上传到 p 失败: rejected")] :=
  (registry_uploadFiles_summary envEmptyW [("p", provW)] 99
    [{ name := "a", type := "t", size := 1 }, { name := "bad", type := "t", size := 1 },
     { name := "c", type := "t", size := 1 }] { prov := "p" }).2
    { name := "a", type := "t", size := 1 } { name := "bad", type := "t", size := 1 }
    { name := "c", type := "t", size := 1 }
    [("fileId", JVal.str "a"), ("provider", JVal.str "p"), ("timestamp", JVal.num 99)]
    [("fileId", JVal.str "c"), ("provider", JVal.str "p"), ("timestamp", JVal.num 99)]
    "上传到 p 失败: rejected" rfl rfl rfl

/-- Claim C7: `healthCheckAll` returns an entry for exactly the registered
provider names (completeness), never raises, and maps a provider whose
health check throws to a `status: "error"` record carrying the caught
message. -/
theorem healthCheckAll_complete (providers : List (String × Provider)) :
    StorageManager.getAvailableProviders (StorageManager.healthCheck providers) =
      StorageManager.getAvailableProviders providers ∧
    (∀ name p m, (name, p) ∈ providers → p.health = some (.error m) →
      (name, ([("status", JVal.str "error"), ("message", JVal.str m)] : JObj)) ∈
        StorageManager.healthCheck providers) := by
  constructor
  · induction providers with
    | nil => rfl
    | cons a t ih =>
      simp only [StorageManager.healthCheck, StorageManager.getAvailableProviders,
        List.map_cons] at ih ⊢
      cases hh : a.2.health with
      | none => simpa [hh] using ih
      | some e => cases e <;> simpa [hh] using ih
  · intro name p m hmem hh
    simp only [StorageManager.healthCheck]
    refine List.mem_map.2 ⟨(name, p), hmem, ?_⟩
    simp [hh]

/-- Witness for C7: one healthy and one throwing provider. -/
theorem healthCheckAll_complete_witness :
    (("b", ([("status", JVal.str "error"), ("message", JVal.str "boom")] : JObj)) ∈
      StorageManager.healthCheck [("a", provW), ("b", provBadHealthW)]) ∧
    StorageManager.getAvailableProviders
        (StorageManager.healthCheck [("a", provW), ("b", provBadHealthW)]) =
      StorageManager.getAvailableProviders [("a", provW), ("b", provBadHealthW)] :=
  ⟨(healthCheckAll_complete [("a", provW), ("b", provBadHealthW)]).2 "b" provBadHealthW "boom"
      (List.Mem.tail _ (List.Mem.head _)) rfl,
   (healthCheckAll_complete [("a", provW), ("b", provBadHealthW)]).1⟩

/-- Claim C8: a well-formed backend error response is returned as a failure
immediately (never retried), while network-level transport failures are
retried up to 2 additional times with linear backoff delays
`attempt × 1000` ms before the call fails. -/
theorem telegram_retry_policy :
    (∀ (oracle : Nat → TgFetchOutcome) (desc : String), oracle 0 = .respErr desc →
      TelegramStorage.sendToTelegram oracle 0 = (.failure desc, [])) ∧
    (∀ (oracle : Nat → TgFetchOutcome) (d : String),
      oracle 0 = .netFail → oracle 1 = .respOk d →
      TelegramStorage.sendToTelegram oracle 0 = (.success d, [1000])) ∧
    (∀ (oracle : Nat → TgFetchOutcome),
      oracle 0 = .netFail → oracle 1 = .netFail → oracle 2 = .netFail →
      TelegramStorage.sendToTelegram oracle 0 = (.failure "网络连接失败", [1000, 2000])) := by
  refine ⟨?_, ?_, ?_⟩
  · intro oracle desc h0
    rw [TelegramStorage.sendToTelegram, h0]
  · intro oracle d h0 h1
    rw [TelegramStorage.sendToTelegram, h0]
    rw [TelegramStorage.sendToTelegram, h1]
    simp
  · intro oracle h0 h1 h2
    rw [TelegramStorage.sendToTelegram, h0]
    rw [TelegramStorage.sendToTelegram, h1]
    rw [TelegramStorage.sendToTelegram, h2]
    simp

/-- Witness for C8: every attempt fails at the network level. -/
theorem telegram_retry_policy_witness :
    TelegramStorage.sendToTelegram (fun _ => TgFetchOutcome.netFail) 0 =
      (TgSendResult.failure "网络连接失败", [1000, 2000]) :=
  telegram_retry_policy.2.2 (fun _ => TgFetchOutcome.netFail) rfl rfl rfl

/-- Decimal digit characters produced by `Nat.digitChar` are digits. -/
theorem isDigit_digitChar (m : Nat) (h : m < 10) :
    isAsciiDigitChar (Nat.digitChar m) = true := by
  interval_cases m <;> decide

/-- Every character produced by the decimal digit printer is a digit. -/
theorem toDigitsCore_all (fuel : Nat) : ∀ (n : Nat) (ds : List Char),
    ds.all isAsciiDigitChar = true →
    (Nat.toDigitsCore 10 fuel n ds).all isAsciiDigitChar = true := by
  induction fuel with
  | zero => intro n ds h; simpa [Nat.toDigitsCore] using h
  | succ f ih =>
    intro n ds h
    simp only [Nat.toDigitsCore]
    have hd := isDigit_digitChar (n % 10) (Nat.mod_lt _ (by norm_num))
    split
    · simp [List.all_cons, hd, h]
    · exact ih _ _ (by simp [List.all_cons, hd, h])

/-- The digit printer never shrinks its accumulator. -/
theorem toDigitsCore_length_le (fuel : Nat) : ∀ (n : Nat) (ds : List Char),
    ds.length ≤ (Nat.toDigitsCore 10 fuel n ds).length := by
  induction fuel with
  | zero => intro n ds; simp [Nat.toDigitsCore]
  | succ f ih =>
    intro n ds
    simp only [Nat.toDigitsCore]
    split
    · simp
    · exact le_trans (by simp) (ih (n / 10) (Nat.digitChar (n % 10) :: ds))

/-- The decimal representation of a natural number is nonempty. -/
theorem toDigits_ne_nil (n : Nat) : Nat.toDigits 10 n ≠ [] := by
  unfold Nat.toDigits
  simp only [Nat.toDigitsCore]
  split
  · simp
  · intro h
    have hle := toDigitsCore_length_le n (n / 10) [Nat.digitChar (n % 10)]
    rw [h] at hle
    simp at hle

/-- All characters of `Nat.repr` are decimal digits. -/
theorem natRepr_all_digits (n : Nat) : (Nat.repr n).data.all isAsciiDigitChar = true := by
  have h := toDigitsCore_all (n + 1) n [] rfl
  simpa [Nat.repr, Nat.toDigits, List.asString] using h

/-- `Nat.repr` is nonempty. -/
theorem natRepr_data_ne_nil (n : Nat) : (Nat.repr n).data ≠ [] := by
  have h := toDigits_ne_nil n
  simpa [Nat.repr, List.asString] using h

/-- `takeWhile` stops exactly at the first failing character after an
all-satisfying block. -/
theorem takeWhile_all_append (p : Char → Bool) (l1 : List Char) (c : Char) (l2 : List Char)
    (h1 : l1.all p = true) (hc : p c = false) :
    ((l1 ++ c :: l2).takeWhile p) = l1 := by
  induction l1 with
  | nil => simp [List.takeWhile_cons, hc]
  | cons a t ih =>
    simp only [List.all_cons, Bool.and_eq_true] at h1
    simp [List.takeWhile_cons, h1.1, ih h1.2]

/-- A generated `<epochMillis>_<rand>.png` name matches the amended pattern
whenever the random part has at most six lowercase-alphanumeric characters,
which is all `substring(2, 8)` of a base-36 fraction can produce. -/
theorem generated_fileId_matches_loose (nowMs : Nat) (rand : String)
    (hlen : rand.length ≤ 6) (hchars : rand.data.all isLowerAlnumChar = true) :
    matchesUploadIdPatternLoose (toString nowMs ++ "_" ++ rand ++ "." ++ "png") = true := by
  have h6 : rand.data.length ≤ 6 := by rw [String.length_data]; exact hlen
  have hdata : (toString nowMs ++ "_" ++ rand ++ "." ++ "png").data =
      (Nat.repr nowMs).data ++ '_' :: (rand.data ++ ['.', 'p', 'n', 'g']) := by
    show (Nat.repr nowMs ++ "_" ++ rand ++ "." ++ "png").data = _
    simp [String.data_append]
  have hTake : (((Nat.repr nowMs).data ++ '_' :: (rand.data ++ ['.', 'p', 'n', 'g'])).takeWhile
      isAsciiDigitChar) = (Nat.repr nowMs).data :=
    takeWhile_all_append _ _ _ _ (natRepr_all_digits nowMs) rfl
  have hpos : 0 < (Nat.repr nowMs).data.length :=
    List.length_pos.2 (natRepr_data_ne_nil nowMs)
  have hpos2 : 0 < (Nat.repr nowMs).length := by
    rw [← String.length_data]; exact hpos
  simp only [matchesUploadIdPatternLoose, hdata, hTake, List.drop_left]
  have hsub : (rand.data ++ ['.', 'p', 'n', 'g']).length - 4 = rand.data.length := by
    simp
  have ht : ((rand.data ++ ['.', 'p', 'n', 'g']).take
      ((rand.data ++ ['.', 'p', 'n', 'g']).length - 4)) = rand.data := by
    rw [hsub, List.take_left]
  have hd : ((rand.data ++ ['.', 'p', 'n', 'g']).drop
      ((rand.data ++ ['.', 'p', 'n', 'g']).length - 4)) = ['.', 'p', 'n', 'g'] := by
    rw [hsub, List.drop_left]
  simp [ht, hd, hchars, hpos, hpos2]
  omega

/-- Counterexample to claim C9 as stated: `Math.random().toString(36)` can
be shorter than eight characters (`Math.random() = 0.5` prints as `"0.i"` in
base 36, whose `substring(2, 8)` is just `"i"`), and the resulting upload
succeeds with a one-character random part, so its fileId fails the claimed
`^[0-9]+_[a-z0-9]\x7b6\x7d\.png$` pattern. -/
theorem s3_upload_fileId_shorter_counterexample :
    S3Storage.uploadFile cfgW 1700000000123 "i"
        { name := "a.png", type := "image/png", size := 10 } {} (.ok "etag1") =
      .ok { fileId := "1700000000123_i.png", originalName := "a.png", size := 10,
            type := "image/png", url := cfgW.publicUrl ++ "/" ++ "1700000000123_i.png",
            provider := "s3", bucket := cfgW.bucket, key := "1700000000123_i.png",
            etag := "etag1" } ∧
    matchesUploadIdPattern "1700000000123_i.png" = false :=
  ⟨rfl, rfl⟩

/-- Claim C9 (amended): uploading a 10-byte `a.png` of type `image/png` to
the SigV4 object store with no explicit name and no prefix yields a
`fileId` matching `^[0-9]+_[a-z0-9]\x7b0,6\x7d\.png$` - the random part is the
up-to-six (typically exactly six) base-36 fraction characters that
`Math.random().toString(36).substring(2, 8)` can produce - with `url` equal
to `<publicUrl>/<fileId>` and `size = 10`. -/
theorem s3_upload_fileId_pattern_amended (cfg : S3Cfg) (nowMs : Nat) (rand etag : String)
    (hlen : rand.length ≤ 6) (hchars : rand.data.all isLowerAlnumChar = true) :
    ∃ res, S3Storage.uploadFile cfg nowMs rand
        { name := "a.png", type := "image/png", size := 10 } {} (.ok etag) = .ok res ∧
      matchesUploadIdPatternLoose res.fileId = true ∧
      res.url = cfg.publicUrl ++ "/" ++ res.fileId ∧
      res.size = 10 := by
  refine ⟨_, rfl, ?_, rfl, rfl⟩
  show matchesUploadIdPatternLoose (toString nowMs ++ "_" ++ rand ++ "." ++ "png") = true
  exact generated_fileId_matches_loose nowMs rand hlen hchars

/-- Witness for the amended C9 theorem at concrete inputs. -/
theorem s3_upload_fileId_pattern_amended_witness :
    ∃ res, S3Storage.uploadFile cfgW 1700000000123 "abc123"
        { name := "a.png", type := "image/png", size := 10 } {} (.ok "etag1") = .ok res ∧
      matchesUploadIdPatternLoose res.fileId = true ∧
      res.url = cfgW.publicUrl ++ "/" ++ res.fileId ∧
      res.size = 10 :=
  s3_upload_fileId_pattern_amended cfgW 1700000000123 "abc123" "etag1" (by decide) (by decide)
